import Mathlib

/-!
Verification of the emitter broker request-handling pipeline
(`internal/broker/handlers.go` and its request/response types).

The handlers are shallowly embedded as pure Lean functions. External
collaborators (the channel parser, the capability evaluator, the key
store, the message store, the contract cache and the cluster presence
survey) are passed in as an explicit `Env` of oracle functions, exactly
at the call signatures the handler code uses. Per-connection mutable
state (the shortcut link map and the trie entries owned by the
connection) is threaded explicitly through a `ConnState`.

Byte strings (Go `string` and `[]byte` values) are modelled uniformly
as `List Nat`; Go `uint32` results are reduced modulo 2^32 where the
source performs a narrowing conversion.
-/

namespace Emitter

/-- Byte strings: both Go `string` and `[]byte` values. -/
abbrev Str := List Nat

/-- Bytes of an ASCII string literal. -/
def strBytes (s : String) : Str := s.data.map Char.toNat

/-- Modelled from the spec: permission bits of the security package
(`Read, Write, Store, Load, Presence, Extend, Execute, None`); the
security package is not under src/, only the bit names matter. -/
def AllowNone : Nat := 0

def AllowRead : Nat := 2

def AllowWrite : Nat := 4

def AllowStore : Nat := 8

def AllowLoad : Nat := 16

def AllowPresence : Nat := 32

def AllowExtend : Nat := 64

def AllowExecute : Nat := 128

def AllowAll : Nat :=
  AllowRead ||| AllowWrite ||| AllowStore ||| AllowLoad |||
  AllowPresence ||| AllowExtend ||| AllowExecute

/-- Modelled from the spec: a decrypted key exposes
`{contract_id, is_master, is_expired, permissions}`. -/
structure Key where
  contract : Nat
  permissions : Nat
  isMaster : Bool
  isExpired : Bool
deriving DecidableEq

/-- Modelled from the spec: a key has a permission iff the requested
mask is contained in its permission bits. -/
def Key.hasPermission (k : Key) (flag : Nat) : Bool :=
  k.permissions &&& flag == flag

/-- Channel type: `Invalid`, `Static` or `Wildcard`. -/
inductive ChannelType where
  | ChannelInvalid
  | ChannelStatic
  | ChannelWildcard
deriving DecidableEq

/-- Parsed channel, as the handlers consume it: type, key bytes, channel
path bytes, hashed query, and the recognized options (`ttl`, `last`, the
time window and the `me` exclusion flag) as the external parser reports
them through `TTL()`, `Last()`, `Window()` and `Exclude()`. -/
structure Channel where
  channelType : ChannelType
  key : Str
  channel : Str
  query : List Nat
  ttlOpt : Option Int
  lastOpt : Option Int
  window : Int × Int
  excludeMe : Bool
deriving DecidableEq

/-- Modelled from the spec: `Channel.String()` renders the full channel
string including the key portion (security package not under src/). -/
def Channel.str (c : Channel) : Str := c.key ++ [47] ++ c.channel

/-- Modelled from the spec: `SafeString` is the channel without the
secret key portion (security package not under src/). -/
def Channel.safeString (c : Channel) : Str := c.channel

/-- Modelled from the spec: a contract validates keys. Stats counters
are omitted (metrics only). -/
structure Contract where
  validate : Key → Bool

/-- Modelled from the spec: `message.NewSsid(contract, query)` is the
ordered sequence `[contract_id, q0, q1, ...]` (message package not
under src/). -/
def NewSsid (contract : Nat) (query : List Nat) : Str :=
  contract :: query

/-- Modelled from the spec: the presence SSID is the same SSID placed
under a reserved presence namespace (message package not under src/). -/
def NewSsidForPresence (ssid : Str) : Str :=
  3869262148 :: ssid

/-- Modelled from the spec: the system default TTL applied to retained
publishes; positive, so that retained messages count as stored. -/
def RetainedTTL : Nat := 3600

/-- A message as built by `message.New` plus its TTL field. -/
structure Message where
  ssid : Str
  channel : Str
  payload : Str
  ttl : Nat
deriving DecidableEq

/-- Modelled from the spec: `Stored()` returns true iff `ttl > 0`. -/
def Message.isStored (m : Message) : Bool :=
  decide (0 < m.ttl)

/-- The error taxonomy of `internal/errors` as the handlers use it. -/
inductive Err where
  | ErrBadRequest
  | ErrUnauthorized
  | ErrUnauthorizedExt
  | ErrForbidden
  | ErrNotFound
  | ErrServerError
  | ErrLinkInvalid
  | ErrOther (code : Nat)
deriving DecidableEq

/-- Presence info for a single connection. -/
structure PresenceInfo where
  id : Str
  username : Str
deriving DecidableEq

/-- The response shapes a handler can produce (the error responses plus
the four success envelopes of keygen, link, me and presence). -/
inductive Resp where
  | err (e : Err)
  | keygen (status : Nat) (key : Str) (channel : Str)
  | link (status : Nat) (name : Str) (channel : Str)
  | me (id : Str) (links : List (Str × Str))
  | presence (time : Int) (event : Str) (channel : Str) (who : List PresenceInfo)
deriving DecidableEq

/-- The links map carried by an `onMe` response (empty otherwise). -/
def respLinks : Resp → List (Str × Str)
  | Resp.me _ l => l
  | _ => []

/-- Whether an optional response is a presence status event body. -/
def isStatusBody : Option Resp → Bool
  | some (Resp.presence _ _ _ _) => true
  | _ => false

/-- keygen request body `{key, channel, type, ttl}`. -/
structure KeyGenRequest where
  key : Str
  channel : Str
  type : Str
  ttl : Int
deriving DecidableEq

/-- One step of the `access()` switch over the bytes of `type`. -/
def accessStep (required : Nat) (c : Nat) : Nat :=
  if c = 114 then required ||| AllowRead
  else if c = 119 then required ||| AllowWrite
  else if c = 115 then required ||| AllowStore
  else if c = 108 then required ||| AllowLoad
  else if c = 112 then required ||| AllowPresence
  else if c = 101 then required ||| AllowExtend
  else if c = 120 then required ||| AllowExecute
  else required

/-- `keyGenRequest.access()`: fold the switch over the type bytes. -/
def KeyGenRequest.access (m : KeyGenRequest) : Nat :=
  m.type.foldl accessStep AllowNone

/-- `keyGenRequest.expires()`: epoch zero for `ttl = 0`, otherwise now
plus `ttl` seconds (times as UNIX seconds). -/
def KeyGenRequest.expires (m : KeyGenRequest) (now : Int) : Int :=
  if m.ttl = 0 then 0 else now + m.ttl

/-- The permission bit a single type character maps to (unknown
characters map to no bit); the claim-side reading of `access()`. -/
def permBit (c : Nat) : Nat :=
  if c = 114 then AllowRead
  else if c = 119 then AllowWrite
  else if c = 115 then AllowStore
  else if c = 108 then AllowLoad
  else if c = 112 then AllowPresence
  else if c = 101 then AllowExtend
  else if c = 120 then AllowExecute
  else 0

/-- Claim-side access: the OR of the bits mapped from the characters. -/
def accessSpec (t : Str) : Nat :=
  (t.map permBit).foldl (fun a b => a ||| b) 0

/-- link request body `{name, key, channel, subscribe, private}`. -/
structure LinkRequest where
  name : Str
  key : Str
  channel : Str
  subscribe : Bool
  priv : Bool
deriving DecidableEq

/-- presence request body `{key, channel, status, changes}` after JSON
decoding (`status` defaults to true, `changes` is tri-state). -/
structure PresenceRequest where
  key : Str
  channel : Str
  status : Bool
  changes : Option Bool
deriving DecidableEq

/-- The external collaborators of the handlers, at the call signatures
the source uses: channel parser, capability evaluator, message store
query, key decrypt/create/extend, channel construction, contract cache,
presence scatter/gather, current UNIX time and the connection id. -/
structure Env where
  parseChannel : Str → Channel
  authorize : Channel → Nat → Option (Contract × Key)
  storageQuery : Str → Int → Int → Int → Except Unit (List Message)
  decryptKey : Str → Except Unit Key
  createKey : Str → Str → Nat → Int → Except Err Str
  extendKey : Str → Str → Str → Nat → Int → Except Err Channel
  makeChannel : Str → Str → Option Channel
  contractsGet : Nat → Option Contract
  allPresence : Str → List PresenceInfo
  now : Int
  connId : Str

/-- Per-connection state: the shortcut link map (nil-able, as in Go)
and the trie entries `(ssid, channel)` held for this connection. -/
structure ConnState where
  links : Option (List (Str × Str))
  subs : List (Str × Str)
  username : Str
deriving DecidableEq

/-- Association-list lookup (Go map read reporting presence). -/
def lookupAssoc (m : List (Str × Str)) (k : Str) : Option Str :=
  match m.find? (fun e => e.1 == k) with
  | some e => some e.2
  | none => none

/-- Go map read: a missing key yields the zero value, the empty
string. -/
def mapGet (m : List (Str × Str)) (k : Str) : Str :=
  (lookupAssoc m k).getD []

/-- Go map assignment: replace the binding if the key is present,
append it otherwise. -/
def setAssoc (m : List (Str × Str)) (k v : Str) : List (Str × Str) :=
  if m.any (fun e => e.1 == k) then
    m.map (fun e => if e.1 == k then (k, v) else e)
  else m ++ [(k, v)]

/-- Assignment into the possibly-nil links map (the handlers only
assign after connection setup has initialized the map; assignment to a
nil Go map would panic, modelled as a no-op on `none`). -/
def linksSet (links : Option (List (Str × Str))) (k v : Str) :
    Option (List (Str × Str)) :=
  match links with
  | some m => some (setAssoc m k v)
  | none => none

/-- The links map, with the Go nil map reading as empty. -/
def linksOf : Option (List (Str × Str)) → List (Str × Str)
  | some m => m
  | none => []

/-- Modelled from the spec: `Conn.Subscribe` inserts `(ssid, channel)`
into the subscription trie for this connection, idempotently (the trie
implementation is not under src/). -/
def connSubscribe (st : ConnState) (ssid : Str) (channel : Str) : ConnState :=
  if (ssid, channel) ∈ st.subs then st
  else { st with subs := st.subs ++ [(ssid, channel)] }

/-- Modelled from the spec: `Conn.Unsubscribe` removes the
`(ssid, channel)` entry; removing a non-existent entry is a no-op. -/
def connUnsubscribe (st : ConnState) (ssid : Str) (channel : Str) : ConnState :=
  { st with subs := st.subs.filter (fun e => e ≠ (ssid, channel)) }

/-- The `shortcut` regular expression `^[a-zA-Z0-9]{1,2}$`, byte
level. -/
def isAlnumByte (b : Nat) : Bool :=
  (97 ≤ b && b ≤ 122) || (65 ≤ b && b ≤ 90) || (48 ≤ b && b ≤ 57)

/-- `shortcut.Match`: one or two bytes, all ASCII alphanumeric. -/
def shortcutMatch (s : Str) : Bool :=
  decide (1 ≤ s.length) && decide (s.length ≤ 2) && s.all isAlnumByte

/-- An MQTT publish packet as `onPublish` consumes it. -/
structure Publish where
  topic : Str
  payload : Str
  messageID : Nat
  retain : Bool
deriving DecidableEq

/-- The shortcut-link resolution opening `onPublish`: a topic of at
most two bytes is looked up in the (non-nil) links map, with the Go
zero value for a missing key. -/
def resolveLink (st : ConnState) (topic : Str) : Str :=
  if topic.length ≤ 2 then
    match st.links with
    | some m => mapGet m topic
    | none => topic
  else topic

/-- Result of `onSubscribe`: the returned error (none on success), the
connection state after the call and the replayed messages sent. -/
structure SubscribeResult where
  err : Option Err
  state : ConnState
  sent : List Message
deriving DecidableEq

/-- The replay limit: `options.last` if present, else 1. -/
def subLimit (channel : Channel) : Int :=
  match channel.lastOpt with
  | some v => v
  | none => 1

/-- The replay tail of `onSubscribe`, after the subscription has been
applied: query the store when the key has `Load`. -/
def subscribeLoad (env : Env) (st : ConnState) (key : Key) (channel : Channel) :
    SubscribeResult :=
  if key.hasPermission AllowLoad then
    match env.storageQuery (NewSsid key.contract channel.query)
        channel.window.1 channel.window.2 (subLimit channel) with
    | Except.error _ => { err := some Err.ErrServerError, state := st, sent := [] }
    | Except.ok msgs => { err := none, state := st, sent := msgs }
  else { err := none, state := st, sent := [] }

/-- `onSubscribe`: parse, authorize `Read`, reject `Extend` keys,
insert into the trie, then replay. -/
def onSubscribe (env : Env) (st : ConnState) (mqttTopic : Str) : SubscribeResult :=
  if (env.parseChannel mqttTopic).channelType = ChannelType.ChannelInvalid then
    { err := some Err.ErrBadRequest, state := st, sent := [] }
  else
    match env.authorize (env.parseChannel mqttTopic) AllowRead with
    | none => { err := some Err.ErrUnauthorized, state := st, sent := [] }
    | some (_, key) =>
      if key.hasPermission AllowExtend then
        { err := some Err.ErrUnauthorizedExt, state := st, sent := [] }
      else
        subscribeLoad env
          (connSubscribe st (NewSsid key.contract (env.parseChannel mqttTopic).query)
            (env.parseChannel mqttTopic).channel)
          key (env.parseChannel mqttTopic)

/-- `onUnsubscribe`: parse, authorize `Read`, remove from the trie. -/
def onUnsubscribe (env : Env) (st : ConnState) (mqttTopic : Str) :
    Option Err × ConnState :=
  if (env.parseChannel mqttTopic).channelType = ChannelType.ChannelInvalid then
    (some Err.ErrBadRequest, st)
  else
    match env.authorize (env.parseChannel mqttTopic) AllowRead with
    | none => (some Err.ErrUnauthorized, st)
    | some (_, key) =>
      (none,
        connUnsubscribe st (NewSsid key.contract (env.parseChannel mqttTopic).query)
          (env.parseChannel mqttTopic).channel)

/-- Result of `onPublish`: the returned error, the emitter-API handoff
if taken, the message given to the store if any, and the message handed
to fan-out with its exclusion id, if reached. -/
structure PublishResult where
  err : Option Err
  emitterReq : Option (Channel × Str × Nat)
  stored : Option Message
  published : Option (Message × Str)
deriving DecidableEq

/-- An error outcome of `onPublish`: nothing stored, nothing fanned
out, no API handoff. -/
def pubErr (e : Err) : PublishResult :=
  { err := some e, emitterReq := none, stored := none, published := none }

/-- First TTL assignment: the retain flag sets the default retained
TTL. -/
def retainTTL (retain : Bool) (t : Nat) : Nat :=
  if retain then RetainedTTL else t

/-- Second TTL assignment: an explicit positive `ttl` option overrides,
with the Go `uint32` narrowing. -/
def optionTTL (ttlOpt : Option Int) (t : Nat) : Nat :=
  match ttlOpt with
  | some ttl => if 0 < ttl then ttl.toNat % 4294967296 else t
  | none => t

/-- The message `onPublish` builds: ssid from contract and query, the
channel path, the payload, and the TTL after the two sequential
assignments of the source. -/
def pubMessage (key : Key) (channel : Channel) (packet : Publish) : Message :=
  { ssid := NewSsid key.contract channel.query
    channel := channel.channel
    payload := packet.payload
    ttl := optionTTL channel.ttlOpt (retainTTL packet.retain 0) }

/-- The tail of `onPublish` after authorization: build the message,
store it when stored and the key has `Store`, and fan out with the
`me=0` exclusion. -/
def pubFanout (env : Env) (key : Key) (channel : Channel) (packet : Publish) :
    PublishResult :=
  { err := none
    emitterReq := none
    stored :=
      if (pubMessage key channel packet).isStored &&
          key.hasPermission AllowStore then
        some (pubMessage key channel packet)
      else none
    published :=
      some (pubMessage key channel packet,
        if channel.excludeMe then env.connId else []) }

/-- `onPublish`: resolve the shortcut link, parse, require a static
channel, hand off `emitter` API requests, authorize `Write`, reject
`Extend` keys, then build, store and fan out the message. -/
def onPublish (env : Env) (st : ConnState) (packet : Publish) : PublishResult :=
  if (env.parseChannel (resolveLink st packet.topic)).channelType =
      ChannelType.ChannelInvalid then
    pubErr Err.ErrBadRequest
  else if (env.parseChannel (resolveLink st packet.topic)).channelType ≠
      ChannelType.ChannelStatic then
    pubErr Err.ErrForbidden
  else if (env.parseChannel (resolveLink st packet.topic)).key.length = 7 ∧
      (env.parseChannel (resolveLink st packet.topic)).key = strBytes "emitter" then
    { err := none
      emitterReq := some (env.parseChannel (resolveLink st packet.topic),
        packet.payload, packet.messageID)
      stored := none
      published := none }
  else
    match env.authorize (env.parseChannel (resolveLink st packet.topic))
        AllowWrite with
    | none => pubErr Err.ErrUnauthorized
    | some (_, key) =>
      if key.hasPermission AllowExtend then pubErr Err.ErrUnauthorizedExt
      else pubFanout env key (env.parseChannel (resolveLink st packet.topic)) packet

/-- The channel `onLink` builds: `MakeChannel(key, channel)`, replaced
by an extended private channel when `private` is requested. -/
def linkChannel (env : Env) (request : LinkRequest) : Except Err (Option Channel) :=
  if request.priv then
    match env.extendKey request.key request.channel env.connId AllowAll 0 with
    | Except.error e => Except.error e
    | Except.ok priv => Except.ok (some priv)
  else Except.ok (env.makeChannel request.key request.channel)

/-- The auto-subscribe tail of `onLink`: subscribe when requested and
the channel authorizes `Read`. -/
def linkSubscribe (env : Env) (request : LinkRequest) (channel : Channel)
    (st : ConnState) : ConnState :=
  match env.authorize channel AllowRead with
  | some (_, key) =>
    if request.subscribe then
      connSubscribe st (NewSsid key.contract channel.query) channel.channel
    else st
  | none => st

/-- `onLink`: decode, validate the shortcut name, build the channel,
store `links[name] = channel.String()`, optionally auto-subscribe, and
answer with the safe channel string. -/
def onLink (env : Env) (st : ConnState) (payload : Option LinkRequest) :
    (Resp × Bool) × ConnState :=
  match payload with
  | none => ((Resp.err Err.ErrBadRequest, false), st)
  | some request =>
    if shortcutMatch request.name = false then
      ((Resp.err Err.ErrLinkInvalid, false), st)
    else
      match linkChannel env request with
      | Except.error e => ((Resp.err e, false), st)
      | Except.ok none => ((Resp.err Err.ErrBadRequest, false), st)
      | Except.ok (some channel) =>
        if channel.channelType = ChannelType.ChannelInvalid then
          ((Resp.err Err.ErrBadRequest, false), st)
        else
          ((Resp.link 200 request.name channel.safeString, true),
            linkSubscribe env request channel
              { st with links := linksSet st.links request.name channel.str })

/-- `onMe`: the connection id and the link map with every value
rewritten through `ParseChannel(v).SafeString()`. -/
def onMe (env : Env) (st : ConnState) : Resp × Bool :=
  (Resp.me env.connId
    ((linksOf st.links).map (fun e => (e.1, (env.parseChannel e.2).safeString))),
    true)

/-- `onKeyGen`: decode, decrypt the parent key, reject expired keys,
mint from a master key, extend from an `Extend` key, otherwise
Unauthorized. -/
def onKeyGen (env : Env) (payload : Option KeyGenRequest) : Resp × Bool :=
  match payload with
  | none => (Resp.err Err.ErrBadRequest, false)
  | some m =>
    match env.decryptKey m.key with
    | Except.error _ => (Resp.err Err.ErrUnauthorized, false)
    | Except.ok parentKey =>
      if parentKey.isExpired then (Resp.err Err.ErrUnauthorized, false)
      else if parentKey.isMaster then
        match env.createKey m.key m.channel m.access (m.expires env.now) with
        | Except.error e => (Resp.err e, false)
        | Except.ok key => (Resp.keygen 200 key m.channel, true)
      else if parentKey.hasPermission AllowExtend then
        match env.extendKey m.key m.channel env.connId m.access (m.expires env.now) with
        | Except.error e => (Resp.err e, false)
        | Except.ok channel => (Resp.keygen 200 channel.key channel.channel, true)
      else (Resp.err Err.ErrUnauthorized, false)

/-- Ensure a trailing slash on the requested presence channel
(`strings.HasSuffix(channel, "/")`, byte 47). -/
def withSlash (s : Str) : Str :=
  if s.getLast? = some 47 then s else s ++ [47]

/-- The channel `onPresence` parses: `"emitter/" + channel` with the
trailing slash ensured. -/
def presenceChannelOf (env : Env) (msg : PresenceRequest) : Channel :=
  env.parseChannel (strBytes "emitter/" ++ withSlash msg.channel)

/-- The changes toggle of `onPresence`: subscribe or unsubscribe this
connection from the presence SSID. -/
def presenceChanges (st : ConnState) (msg : PresenceRequest) (ssid : Str) :
    ConnState :=
  match msg.changes with
  | none => st
  | some true => connSubscribe st (NewSsidForPresence ssid) []
  | some false => connUnsubscribe st (NewSsidForPresence ssid) []

/-- The reply tail of `onPresence`: a status body with the gathered
who-list when `status` is set, otherwise no body. -/
def presenceReply (env : Env) (msg : PresenceRequest) (key : Key)
    (st : ConnState) : (Option Resp × Bool) × ConnState :=
  if msg.status then
    ((some (Resp.presence env.now (strBytes "status") (withSlash msg.channel)
        (env.allPresence (NewSsid key.contract (presenceChannelOf env msg).query))),
      true), st)
  else ((none, true), st)

/-- `onPresence`: decode, decrypt and check `Presence` and expiry,
fetch and validate the contract, parse the synthesized channel, apply
the changes toggle, then reply per the `status` field. -/
def onPresence (env : Env) (st : ConnState) (payload : Option PresenceRequest) :
    (Option Resp × Bool) × ConnState :=
  match payload with
  | none => ((some (Resp.err Err.ErrBadRequest), false), st)
  | some msg =>
    match env.decryptKey msg.key with
    | Except.error _ => ((some (Resp.err Err.ErrUnauthorized), false), st)
    | Except.ok key =>
      if key.hasPermission AllowPresence = false ∨ key.isExpired = true then
        ((some (Resp.err Err.ErrUnauthorized), false), st)
      else
        match env.contractsGet key.contract with
        | none => ((some (Resp.err Err.ErrNotFound), false), st)
        | some contract =>
          if contract.validate key = false then
            ((some (Resp.err Err.ErrUnauthorized), false), st)
          else if (presenceChannelOf env msg).channelType =
              ChannelType.ChannelInvalid then
            ((some (Resp.err Err.ErrBadRequest), false), st)
          else
            presenceReply env msg key
              (presenceChanges st msg
                (NewSsid key.contract (presenceChannelOf env msg).query))

/-! Helper lemmas shared by the claim theorems. -/

theorem connSubscribe_mem (st : ConnState) (s c : Str) :
    (s, c) ∈ (connSubscribe st s c).subs := by
  unfold connSubscribe
  by_cases h : (s, c) ∈ st.subs
  · simp [h]
  · simp [h]

theorem connUnsubscribe_not_mem (st : ConnState) (s c : Str) :
    (s, c) ∉ (connUnsubscribe st s c).subs := by
  unfold connUnsubscribe
  simp

theorem linkSubscribe_links (env : Env) (request : LinkRequest)
    (channel : Channel) (st : ConnState) :
    (linkSubscribe env request channel st).links = st.links := by
  unfold linkSubscribe
  cases h : env.authorize channel AllowRead with
  | none => rfl
  | some p =>
    cases p with
    | mk ct key =>
      by_cases hs : request.subscribe
      · simp [hs, connSubscribe]
        split <;> rfl
      · simp [hs]

theorem accessStep_or (a c : Nat) : accessStep a c = a ||| permBit c := by
  unfold accessStep permBit
  split_ifs <;> simp

theorem foldl_accessStep (l : List Nat) (a : Nat) :
    l.foldl accessStep a = l.foldl (fun x c => x ||| permBit c) a := by
  induction l generalizing a with
  | nil => rfl
  | cons c l ih => simp [List.foldl_cons, accessStep_or, ih]

theorem access_eq_accessSpec (m : KeyGenRequest) :
    m.access = accessSpec m.type := by
  unfold KeyGenRequest.access accessSpec
  rw [List.foldl_map, foldl_accessStep, AllowNone]

theorem lookupAssoc_append_self (m : List (Str × Str)) (k v : Str)
    (h : ∀ e ∈ m, (e.1 == k) = false) :
    lookupAssoc (m ++ [(k, v)]) k = some v := by
  induction m with
  | nil => simp [lookupAssoc, List.find?]
  | cons e t ih =>
    have he := h e (by simp)
    simp only [List.cons_append, lookupAssoc, List.find?, he]
    exact ih (fun x hx => h x (by simp [hx]))

theorem lookupAssoc_setAssoc_self (m : List (Str × Str)) (k v : Str) :
    lookupAssoc (setAssoc m k v) k = some v := by
  unfold setAssoc
  by_cases h : m.any (fun e => e.1 == k)
  · simp only [h, if_true]
    induction m with
    | nil => simp at h
    | cons e t ih =>
      cases hb : (e.1 == k) with
      | true =>
        have hk : e.1 = k := by simpa using hb
        simp [lookupAssoc, List.find?, hb, hk]
      | false =>
        have ht : t.any (fun e => e.1 == k) := by
          simp only [List.any_cons, hb, Bool.false_or] at h
          exact h
        simp only [List.map_cons, lookupAssoc, List.find?, hb]
        simpa [lookupAssoc, hb] using ih ht
  · simp only [h, if_false]
    apply lookupAssoc_append_self
    intro e he
    simp only [List.any_eq_true] at h
    push_neg at h
    simpa using h e he

theorem lookupAssoc_map (m : List (Str × Str)) (k : Str) (f : Str → Str) :
    lookupAssoc (m.map (fun e => (e.1, f e.2))) k = (lookupAssoc m k).map f := by
  induction m with
  | nil => rfl
  | cons e t ih =>
    by_cases he : e.1 == k
    · simp [lookupAssoc, List.find?, he]
    · simp only [List.map_cons, lookupAssoc, List.find?, he] at ih ⊢
      exact ih

theorem lookupAssoc_map_safe (env : Env) (m : List (Str × Str)) (k : Str) :
    lookupAssoc (m.map (fun e => (e.1, (env.parseChannel e.2).safeString))) k =
      (lookupAssoc m k).map (fun v => (env.parseChannel v).safeString) :=
  lookupAssoc_map m k (fun v => (env.parseChannel v).safeString)

/-! Concrete fixtures used by witnesses and counterexamples. -/

/-- A static channel with a one byte key. -/
def chA : Channel :=
  { channelType := ChannelType.ChannelStatic, key := [1], channel := [97, 47],
    query := [5], ttlOpt := none, lastOpt := none, window := (0, 0),
    excludeMe := false }

/-- A wildcard channel. -/
def chW : Channel := { chA with channelType := ChannelType.ChannelWildcard }

/-- A contract accepting every key. -/
def ctA : Contract := { validate := fun _ => true }

/-- A key carrying the Extend bit. -/
def keyExt : Key :=
  { contract := 9, permissions := AllowRead ||| AllowWrite ||| AllowExtend,
    isMaster := false, isExpired := false }

/-- A key with Read and Load, no Extend. -/
def keyLoad : Key :=
  { contract := 9, permissions := AllowRead ||| AllowLoad,
    isMaster := false, isExpired := false }

/-- A base environment whose oracles always succeed. -/
def envA : Env :=
  { parseChannel := fun _ => chA
    authorize := fun _ _ => some (ctA, keyExt)
    storageQuery := fun _ _ _ _ => Except.ok []
    decryptKey := fun _ => Except.ok keyExt
    createKey := fun _ _ _ _ => Except.ok [7]
    extendKey := fun _ _ _ _ _ => Except.ok chA
    makeChannel := fun _ _ => some chA
    contractsGet := fun _ => some ctA
    allPresence := fun _ => []
    now := 100
    connId := [42] }

/-- Environment whose store query fails, authorizing a Load key. -/
def envLoadFail : Env :=
  { envA with
    authorize := fun _ _ => some (ctA, keyLoad)
    storageQuery := fun _ _ _ _ => Except.error () }

/-- Environment whose parser yields a wildcard channel. -/
def envW : Env := { envA with parseChannel := fun _ => chW }

/-- Empty connection state with an initialized empty links map. -/
def st0 : ConnState := { links := some [], subs := [], username := [] }

/-- A plain publish packet with a three byte topic. -/
def pkt0 : Publish :=
  { topic := [97, 47, 98], payload := [1, 2], messageID := 3, retain := false }

/-! Claim theorems. -/

/-- C1: for every key whose Extend permission bit is set and that
passes authorization, `onSubscribe` returns UnauthorizedExt after the
Read check and before any trie insertion (the connection state is
untouched), and `onPublish` returns UnauthorizedExt after the Write
check and before any message is built, stored or fanned out. -/
theorem extend_key_rejected_on_subscribe_and_publish :
    (∀ (env : Env) (st : ConnState) (topic : Str) (ct : Contract) (k : Key),
      (env.parseChannel topic).channelType ≠ ChannelType.ChannelInvalid →
      env.authorize (env.parseChannel topic) AllowRead = some (ct, k) →
      k.hasPermission AllowExtend = true →
      onSubscribe env st topic =
        { err := some Err.ErrUnauthorizedExt, state := st, sent := [] }) ∧
    (∀ (env : Env) (st : ConnState) (packet : Publish) (ct : Contract) (k : Key),
      (env.parseChannel (resolveLink st packet.topic)).channelType =
        ChannelType.ChannelStatic →
      ¬((env.parseChannel (resolveLink st packet.topic)).key.length = 7 ∧
        (env.parseChannel (resolveLink st packet.topic)).key = strBytes "emitter") →
      env.authorize (env.parseChannel (resolveLink st packet.topic)) AllowWrite =
        some (ct, k) →
      k.hasPermission AllowExtend = true →
      onPublish env st packet = pubErr Err.ErrUnauthorizedExt) := by
  constructor
  · intro env st topic ct k h1 h2 h3
    simp [onSubscribe, h1, h2, h3]
  · intro env st packet ct k h1 h2 h3 h4
    simp [onPublish, h1, h2, h3, h4]

/-- Witness for C1 at a concrete environment and packet. -/
theorem extend_key_rejected_witness :
    onSubscribe envA st0 [97, 47, 98] =
      { err := some Err.ErrUnauthorizedExt, state := st0, sent := [] } ∧
    onPublish envA st0 pkt0 = pubErr Err.ErrUnauthorizedExt :=
  ⟨extend_key_rejected_on_subscribe_and_publish.1 envA st0 [97, 47, 98] ctA keyExt
      (by decide) rfl (by decide),
    extend_key_rejected_on_subscribe_and_publish.2 envA st0 pkt0 ctA keyExt
      rfl (by decide) rfl (by decide)⟩

/-- C4: when the channel parses, the key authorizes for Read without
Extend and has Load, and the store query fails, `onSubscribe` returns
ServerError while the subscription inserted before the query stays in
the trie. -/
theorem subscribe_store_error_keeps_subscription :
    ∀ (env : Env) (st : ConnState) (topic : Str) (ct : Contract) (k : Key),
      (env.parseChannel topic).channelType ≠ ChannelType.ChannelInvalid →
      env.authorize (env.parseChannel topic) AllowRead = some (ct, k) →
      k.hasPermission AllowExtend = false →
      k.hasPermission AllowLoad = true →
      env.storageQuery (NewSsid k.contract (env.parseChannel topic).query)
        (env.parseChannel topic).window.1 (env.parseChannel topic).window.2
        (subLimit (env.parseChannel topic)) = Except.error () →
      (onSubscribe env st topic).err = some Err.ErrServerError ∧
      (NewSsid k.contract (env.parseChannel topic).query,
        (env.parseChannel topic).channel) ∈ (onSubscribe env st topic).state.subs := by
  intro env st topic ct k h1 h2 h3 h4 h5
  have he : onSubscribe env st topic =
      { err := some Err.ErrServerError
        state := connSubscribe st (NewSsid k.contract (env.parseChannel topic).query)
          (env.parseChannel topic).channel
        sent := [] } := by
    simp [onSubscribe, subscribeLoad, h1, h2, h3, h4, h5]
  rw [he]
  exact ⟨rfl, connSubscribe_mem _ _ _⟩

/-- Witness for C4 at a concrete failing store. -/
theorem subscribe_store_error_witness :
    (onSubscribe envLoadFail st0 [97, 47, 98]).err = some Err.ErrServerError ∧
    (NewSsid keyLoad.contract (envLoadFail.parseChannel [97, 47, 98]).query,
      (envLoadFail.parseChannel [97, 47, 98]).channel) ∈
      (onSubscribe envLoadFail st0 [97, 47, 98]).state.subs :=
  subscribe_store_error_keeps_subscription envLoadFail st0 [97, 47, 98] ctA keyLoad
    (by decide) rfl (by decide) (by decide) rfl

/-- C6: a publish whose resolved topic parses to a wildcard channel is
Forbidden and the fan-out path is never reached. -/
theorem publish_wildcard_forbidden :
    ∀ (env : Env) (st : ConnState) (packet : Publish),
      (env.parseChannel (resolveLink st packet.topic)).channelType =
        ChannelType.ChannelWildcard →
      onPublish env st packet = pubErr Err.ErrForbidden ∧
      (onPublish env st packet).published = none := by
  intro env st packet h1
  have he : onPublish env st packet = pubErr Err.ErrForbidden := by
    simp [onPublish, h1]
  exact ⟨he, by rw [he]; rfl⟩

/-- Witness for C6 at a concrete wildcard environment. -/
theorem publish_wildcard_forbidden_witness :
    onPublish envW st0 pkt0 = pubErr Err.ErrForbidden ∧
    (onPublish envW st0 pkt0).published = none :=
  publish_wildcard_forbidden envW st0 pkt0 rfl

/-- C10: `onUnsubscribe` performs only the Read authorization check and
no Extend check: an Extend key passing Read authorization on a valid
channel succeeds (no error) and the trie entry is removed. -/
theorem unsubscribe_skips_extend_check :
    ∀ (env : Env) (st : ConnState) (topic : Str) (ct : Contract) (k : Key),
      (env.parseChannel topic).channelType ≠ ChannelType.ChannelInvalid →
      env.authorize (env.parseChannel topic) AllowRead = some (ct, k) →
      k.hasPermission AllowExtend = true →
      onUnsubscribe env st topic =
        (none, connUnsubscribe st (NewSsid k.contract (env.parseChannel topic).query)
          (env.parseChannel topic).channel) ∧
      (NewSsid k.contract (env.parseChannel topic).query,
        (env.parseChannel topic).channel) ∉ (onUnsubscribe env st topic).2.subs := by
  intro env st topic ct k h1 h2 h3
  have he : onUnsubscribe env st topic =
      (none, connUnsubscribe st (NewSsid k.contract (env.parseChannel topic).query)
        (env.parseChannel topic).channel) := by
    simp [onUnsubscribe, h1, h2]
  exact ⟨he, by rw [he]; exact connUnsubscribe_not_mem _ _ _⟩

/-- Witness for C10: an Extend key unsubscribes successfully. -/
theorem unsubscribe_skips_extend_check_witness :
    onUnsubscribe envA st0 [97, 47, 98] =
      (none, connUnsubscribe st0 (NewSsid keyExt.contract
        (envA.parseChannel [97, 47, 98]).query)
        (envA.parseChannel [97, 47, 98]).channel) ∧
    (NewSsid keyExt.contract (envA.parseChannel [97, 47, 98]).query,
      (envA.parseChannel [97, 47, 98]).channel) ∉
      (onUnsubscribe envA st0 [97, 47, 98]).2.subs :=
  unsubscribe_skips_extend_check envA st0 [97, 47, 98] ctA keyExt
    (by decide) rfl (by decide)

/-- Claim-side TTL resolution with the positivity proviso: a positive
explicit `ttl` option wins, then the retain flag, then transient. -/
def publishTTL (ttlOpt : Option Int) (retain : Bool) : Nat :=
  match ttlOpt with
  | some t =>
    if 0 < t then t.toNat % 4294967296
    else if retain then RetainedTTL else 0
  | none => if retain then RetainedTTL else 0

theorem optionTTL_retain_eq_publishTTL (o : Option Int) (r : Bool) :
    optionTTL o (retainTTL r 0) = publishTTL o r := by
  cases o with
  | none => cases r <;> rfl
  | some t =>
    by_cases h : 0 < t
    · simp [optionTTL, publishTTL, h]
    · cases r <;> simp [optionTTL, retainTTL, publishTTL, h]

/-- A static channel carrying an explicit `ttl=0` option. -/
def chT0 : Channel := { chA with ttlOpt := some 0 }

/-- A key with only the Write bit. -/
def keyWr : Key :=
  { contract := 9, permissions := AllowWrite, isMaster := false, isExpired := false }

/-- Environment parsing every topic to the `ttl=0` channel and
authorizing the Write-only key. -/
def envT0 : Env :=
  { envA with
    parseChannel := fun _ => chT0
    authorize := fun _ _ => some (ctA, keyWr) }

/-- A retained publish packet. -/
def pktR : Publish := { pkt0 with retain := true }

/-- C2 counterexample: a publish carrying both the retain flag and an
explicit `ttl` option whose value is 0 stores TTL `RetainedTTL`, not
the explicit option value, so the explicit option does not determine
the stored TTL. -/
theorem publish_ttl_retain_zero_cex :
    pktR.retain = true ∧
    (envT0.parseChannel (resolveLink st0 pktR.topic)).ttlOpt = some 0 ∧
    ((onPublish envT0 st0 pktR).published.map (fun p => p.1.ttl)) =
      some RetainedTTL ∧
    RetainedTTL ≠ 0 := by decide

/-- C2 amended: on the fan-out path the stored TTL is resolved as
positive explicit `ttl` option, else `RetainedTTL` under the retain
flag, else transient; a non-positive `ttl` option does not override
retain. -/
theorem publish_ttl_resolution_amended :
    ∀ (env : Env) (st : ConnState) (packet : Publish) (ct : Contract) (k : Key),
      (env.parseChannel (resolveLink st packet.topic)).channelType =
        ChannelType.ChannelStatic →
      ¬((env.parseChannel (resolveLink st packet.topic)).key.length = 7 ∧
        (env.parseChannel (resolveLink st packet.topic)).key = strBytes "emitter") →
      env.authorize (env.parseChannel (resolveLink st packet.topic)) AllowWrite =
        some (ct, k) →
      k.hasPermission AllowExtend = false →
      ((onPublish env st packet).published.map (fun p => p.1.ttl)) =
        some (publishTTL (env.parseChannel (resolveLink st packet.topic)).ttlOpt
          packet.retain) := by
  intro env st packet ct k h1 h2 h3 h4
  have he : onPublish env st packet =
      pubFanout env k (env.parseChannel (resolveLink st packet.topic)) packet := by
    simp [onPublish, h1, h2, h3, h4]
  rw [he]
  simp [pubFanout, pubMessage, optionTTL_retain_eq_publishTTL]

/-- Witness for the amended C2: retain plus `ttl=0` stores the retained
default. -/
theorem publish_ttl_resolution_amended_witness :
    ((onPublish envT0 st0 pktR).published.map (fun p => p.1.ttl)) =
      some (publishTTL (envT0.parseChannel (resolveLink st0 pktR.topic)).ttlOpt
        pktR.retain) :=
  publish_ttl_resolution_amended envT0 st0 pktR ctA keyWr rfl (by decide) rfl
    (by decide)

/-- Connection state with one stored link, named byte 97. -/
def stLinks : ConnState :=
  { links := some [([97], [107, 49, 47, 97, 47])], subs := [], username := [] }

/-- C3 counterexample: the topic [98] has length at most 2 and no link
with that name exists, yet the topic is substituted by the Go map zero
value, the empty string, instead of being left unchanged. -/
theorem publish_link_substitution_cex :
    lookupAssoc [([97], [107, 49, 47, 97, 47])] [98] = none ∧
    ([98] : Str).length ≤ 2 ∧
    resolveLink stLinks [98] = [] ∧
    resolveLink stLinks [98] ≠ [98] := by decide

/-- C3 amended: for a topic of at most two bytes and a non-nil links
map the topic is always replaced by the map value: the stored channel
string when the link exists, the empty string otherwise; the topic is
left unchanged only when the links map is nil or the topic is longer
than two bytes. -/
theorem publish_link_resolution_amended :
    (∀ (st : ConnState) (topic : Str) (m : List (Str × Str)) (v : Str),
      st.links = some m → topic.length ≤ 2 →
      lookupAssoc m topic = some v → resolveLink st topic = v) ∧
    (∀ (st : ConnState) (topic : Str) (m : List (Str × Str)),
      st.links = some m → topic.length ≤ 2 →
      lookupAssoc m topic = none → resolveLink st topic = []) ∧
    (∀ (st : ConnState) (topic : Str),
      st.links = none → resolveLink st topic = topic) ∧
    (∀ (st : ConnState) (topic : Str),
      2 < topic.length → resolveLink st topic = topic) := by
  refine ⟨?_, ?_, ?_, ?_⟩
  · intro st topic m v hm hlen hv
    simp [resolveLink, hm, hlen, mapGet, hv]
  · intro st topic m hm hlen hv
    simp [resolveLink, hm, hlen, mapGet, hv]
  · intro st topic hm
    by_cases hlen : topic.length ≤ 2 <;> simp [resolveLink, hm, hlen]
  · intro st topic hlen
    have h : ¬ topic.length ≤ 2 := by omega
    simp [resolveLink, h]

/-- Witness for the amended C3 covering all four cases. -/
theorem publish_link_resolution_amended_witness :
    resolveLink stLinks [97] = [107, 49, 47, 97, 47] ∧
    resolveLink stLinks [98] = [] ∧
    resolveLink { st0 with links := none } [98] = [98] ∧
    resolveLink st0 [97, 47, 98] = [97, 47, 98] :=
  ⟨publish_link_resolution_amended.1 stLinks [97]
      [([97], [107, 49, 47, 97, 47])] [107, 49, 47, 97, 47] rfl (by decide) rfl,
    publish_link_resolution_amended.2.1 stLinks [98]
      [([97], [107, 49, 47, 97, 47])] rfl (by decide) rfl,
    publish_link_resolution_amended.2.2.1 { st0 with links := none } [98] rfl,
    publish_link_resolution_amended.2.2.2 st0 [97, 47, 98] (by decide)⟩

/-- C8: a link request whose name falls outside the shortcut grammar
(empty, longer than two bytes, or containing a non-alphanumeric byte)
is answered LinkInvalid with the connection state, links map included,
unchanged. -/
theorem link_invalid_name_rejected :
    (∀ (env : Env) (st : ConnState) (req : LinkRequest),
      shortcutMatch req.name = false →
      onLink env st (some req) = ((Resp.err Err.ErrLinkInvalid, false), st)) ∧
    shortcutMatch [] = false ∧
    (∀ s : Str, 2 < s.length → shortcutMatch s = false) ∧
    (∀ (s : Str) (b : Nat), b ∈ s → isAlnumByte b = false →
      shortcutMatch s = false) := by
  refine ⟨?_, by decide, ?_, ?_⟩
  · intro env st req h
    simp [onLink, h]
  · intro s h
    have h2 : (decide (s.length ≤ 2)) = false := by
      simp only [decide_eq_false_iff_not]
      omega
    simp [shortcutMatch, h2]
  · intro s b hb hfalse
    have h2 : s.all isAlnumByte = false := by
      rw [List.all_eq_false]
      exact ⟨b, hb, by simp [hfalse]⟩
    simp [shortcutMatch, h2]

/-- A link request with a non-alphanumeric shortcut name. -/
def reqBadName : LinkRequest :=
  { name := [33], key := [1], channel := [97, 47], subscribe := false, priv := false }

/-- Witness for C8: rejection of a bad name, and grammar rejections of
the empty, over-long and non-alphanumeric shortcut names. -/
theorem link_invalid_name_rejected_witness :
    onLink envA st0 (some reqBadName) = ((Resp.err Err.ErrLinkInvalid, false), st0) ∧
    shortcutMatch [97, 98, 99] = false ∧
    shortcutMatch [33] = false :=
  ⟨link_invalid_name_rejected.1 envA st0 reqBadName (by decide),
    link_invalid_name_rejected.2.2.1 [97, 98, 99] (by decide),
    link_invalid_name_rejected.2.2.2 [33] 33 (by decide) (by decide)⟩

/-- C5: a keygen request whose parent key decrypts, is not expired and
is a master key yields a status-200 response carrying the key minted
for `access(type)` and `expires(ttl)`, where `access` is the OR of the
permission bits mapped from the type characters (unknown characters
ignored) and `expires` is epoch zero for `ttl = 0` and now plus `ttl`
seconds otherwise; a decrypted, unexpired parent that is neither master
nor Extend is answered Unauthorized. -/
theorem keygen_master_mints_requested_access :
    (∀ (env : Env) (m : KeyGenRequest) (pk : Key) (newKey : Str),
      env.decryptKey m.key = Except.ok pk →
      pk.isExpired = false →
      pk.isMaster = true →
      env.createKey m.key m.channel m.access (m.expires env.now) =
        Except.ok newKey →
      onKeyGen env (some m) = (Resp.keygen 200 newKey m.channel, true)) ∧
    (∀ (env : Env) (m : KeyGenRequest) (pk : Key),
      env.decryptKey m.key = Except.ok pk →
      pk.isExpired = false →
      pk.isMaster = false →
      pk.hasPermission AllowExtend = false →
      onKeyGen env (some m) = (Resp.err Err.ErrUnauthorized, false)) ∧
    (∀ m : KeyGenRequest, m.access = accessSpec m.type) ∧
    (∀ (m : KeyGenRequest) (now : Int),
      m.expires now = if m.ttl = 0 then 0 else now + m.ttl) := by
  refine ⟨?_, ?_, access_eq_accessSpec, fun m now => rfl⟩
  · intro env m pk newKey h1 h2 h3 h4
    simp [onKeyGen, h1, h2, h3, h4]
  · intro env m pk h1 h2 h3 h4
    simp [onKeyGen, h1, h2, h3, h4]

/-- A master parent key. -/
def keyMaster : Key :=
  { contract := 9, permissions := 0, isMaster := true, isExpired := false }

/-- Environment decrypting to the master key. -/
def envKeyGen : Env := { envA with decryptKey := fun _ => Except.ok keyMaster }

/-- Environment decrypting to a plain non-master, non-Extend key. -/
def envKeyPlain : Env := { envA with decryptKey := fun _ => Except.ok keyWr }

/-- A keygen request for read-write access with no expiry. -/
def kgReq : KeyGenRequest :=
  { key := [1], channel := [97, 47], type := strBytes "rw", ttl := 0 }

/-- Witness for C5: minting from a master key and rejection of a plain
parent, plus the access computation at the request. -/
theorem keygen_master_mints_requested_access_witness :
    onKeyGen envKeyGen (some kgReq) = (Resp.keygen 200 [7] kgReq.channel, true) ∧
    onKeyGen envKeyPlain (some kgReq) = (Resp.err Err.ErrUnauthorized, false) ∧
    kgReq.access = accessSpec kgReq.type ∧
    kgReq.expires envKeyGen.now = if kgReq.ttl = 0 then 0 else envKeyGen.now + kgReq.ttl :=
  ⟨keygen_master_mints_requested_access.1 envKeyGen kgReq keyMaster [7]
      rfl rfl rfl rfl,
    keygen_master_mints_requested_access.2.1 envKeyPlain kgReq keyWr
      rfl rfl rfl (by decide),
    keygen_master_mints_requested_access.2.2.1 kgReq,
    keygen_master_mints_requested_access.2.2.2 kgReq envKeyGen.now⟩

/-- A key carrying only the Presence bit. -/
def keyPres : Key :=
  { contract := 9, permissions := AllowPresence, isMaster := false, isExpired := false }

/-- An invalid channel. -/
def chInv : Channel := { chA with channelType := ChannelType.ChannelInvalid }

/-- Environment that authorizes the presence key but whose parser
rejects the synthesized presence topic. -/
def envPresInv : Env :=
  { envA with
    decryptKey := fun _ => Except.ok keyPres
    parseChannel := fun _ => chInv }

/-- A presence request with `status` set. -/
def reqPres : PresenceRequest :=
  { key := [1], channel := [99], status := true, changes := none }

/-- C7 counterexample: the key decrypts with Presence and is unexpired,
the contract is present and validates, and `status` is true, yet no
status body is returned: the synthesized channel fails to parse and
`onPresence` answers BadRequest, so a status body is not returned
exactly when `status` is true. -/
theorem presence_status_body_cex :
    envPresInv.decryptKey reqPres.key = Except.ok keyPres ∧
    keyPres.hasPermission AllowPresence = true ∧
    keyPres.isExpired = false ∧
    envPresInv.contractsGet keyPres.contract = some ctA ∧
    ctA.validate keyPres = true ∧
    reqPres.status = true ∧
    (onPresence envPresInv st0 (some reqPres)).1 =
      (some (Resp.err Err.ErrBadRequest), false) ∧
    isStatusBody (onPresence envPresInv st0 (some reqPres)).1.1 = false :=
  ⟨rfl, rfl, rfl, rfl, rfl, rfl, rfl, rfl⟩

/-- C7 amended: a presence request whose body parses is answered
Unauthorized when the key fails to decrypt, lacks Presence or is
expired, NotFound when the contract is absent; and when authorization
succeeds and the synthesized topic parses to a valid channel, a status
body with event "status" and the gathered who-list is returned exactly
when `status` is true, the call succeeding with no body otherwise. -/
theorem presence_flow_amended :
    (∀ (env : Env) (st : ConnState) (msg : PresenceRequest),
      env.decryptKey msg.key = Except.error () →
      onPresence env st (some msg) =
        ((some (Resp.err Err.ErrUnauthorized), false), st)) ∧
    (∀ (env : Env) (st : ConnState) (msg : PresenceRequest) (k : Key),
      env.decryptKey msg.key = Except.ok k →
      (k.hasPermission AllowPresence = false ∨ k.isExpired = true) →
      onPresence env st (some msg) =
        ((some (Resp.err Err.ErrUnauthorized), false), st)) ∧
    (∀ (env : Env) (st : ConnState) (msg : PresenceRequest) (k : Key),
      env.decryptKey msg.key = Except.ok k →
      k.hasPermission AllowPresence = true →
      k.isExpired = false →
      env.contractsGet k.contract = none →
      onPresence env st (some msg) =
        ((some (Resp.err Err.ErrNotFound), false), st)) ∧
    (∀ (env : Env) (st : ConnState) (msg : PresenceRequest) (k : Key) (ct : Contract),
      env.decryptKey msg.key = Except.ok k →
      k.hasPermission AllowPresence = true →
      k.isExpired = false →
      env.contractsGet k.contract = some ct →
      ct.validate k = true →
      (presenceChannelOf env msg).channelType ≠ ChannelType.ChannelInvalid →
      msg.status = true →
      (onPresence env st (some msg)).1 =
        (some (Resp.presence env.now (strBytes "status") (withSlash msg.channel)
          (env.allPresence
            (NewSsid k.contract (presenceChannelOf env msg).query))), true)) ∧
    (∀ (env : Env) (st : ConnState) (msg : PresenceRequest) (k : Key) (ct : Contract),
      env.decryptKey msg.key = Except.ok k →
      k.hasPermission AllowPresence = true →
      k.isExpired = false →
      env.contractsGet k.contract = some ct →
      ct.validate k = true →
      (presenceChannelOf env msg).channelType ≠ ChannelType.ChannelInvalid →
      msg.status = false →
      (onPresence env st (some msg)).1 = (none, true)) := by
  refine ⟨?_, ?_, ?_, ?_, ?_⟩
  · intro env st msg h1
    simp [onPresence, h1]
  · intro env st msg k h1 h2
    simp only [onPresence, h1]
    rw [if_pos h2]
  · intro env st msg k h1 h2 h3 h4
    simp [onPresence, h1, h2, h3, h4]
  · intro env st msg k ct h1 h2 h3 h4 h5 h6 h7
    simp [onPresence, h1, h2, h3, h4, h5, h6, presenceReply, h7]
  · intro env st msg k ct h1 h2 h3 h4 h5 h6 h7
    simp [onPresence, h1, h2, h3, h4, h5, h6, presenceReply, h7]

/-- Environment failing key decryption. -/
def envDecFail : Env := { envA with decryptKey := fun _ => Except.error () }

/-- Environment authorizing the presence key with no contract. -/
def envNoContract : Env :=
  { envA with
    decryptKey := fun _ => Except.ok keyPres
    contractsGet := fun _ => none }

/-- Environment fully authorizing the presence key on a valid parse. -/
def envPresOk : Env := { envA with decryptKey := fun _ => Except.ok keyPres }

/-- A presence request with `status` off and the changes toggle on. -/
def reqPresOff : PresenceRequest :=
  { key := [1], channel := [99], status := false, changes := some true }

/-- Witness for the amended C7 covering all five cases. -/
theorem presence_flow_amended_witness :
    onPresence envDecFail st0 (some reqPres) =
      ((some (Resp.err Err.ErrUnauthorized), false), st0) ∧
    onPresence envA st0 (some reqPres) =
      ((some (Resp.err Err.ErrUnauthorized), false), st0) ∧
    onPresence envNoContract st0 (some reqPres) =
      ((some (Resp.err Err.ErrNotFound), false), st0) ∧
    (onPresence envPresOk st0 (some reqPres)).1 =
      (some (Resp.presence envPresOk.now (strBytes "status")
        (withSlash reqPres.channel)
        (envPresOk.allPresence
          (NewSsid keyPres.contract (presenceChannelOf envPresOk reqPres).query))),
        true) ∧
    (onPresence envPresOk st0 (some reqPresOff)).1 = (none, true) :=
  ⟨presence_flow_amended.1 envDecFail st0 reqPres rfl,
    presence_flow_amended.2.1 envA st0 reqPres keyExt rfl (Or.inl (by decide)),
    presence_flow_amended.2.2.1 envNoContract st0 reqPres keyPres
      rfl (by decide) rfl rfl,
    presence_flow_amended.2.2.2.1 envPresOk st0 reqPres keyPres ctA
      rfl (by decide) rfl rfl rfl (by decide) rfl,
    presence_flow_amended.2.2.2.2 envPresOk st0 reqPresOff keyPres ctA
      rfl (by decide) rfl rfl rfl (by decide) rfl⟩

/-- C9: a successful `onLink` stores under the shortcut name the full
channel string K, and a subsequent `onMe` reports for that shortcut
exactly `ParseChannel(K).SafeString()`; moreover every value in the
links map reported by `onMe` is a `SafeString`, which is invariant
under the channel's key portion, so the encrypted key never enters a
reported value. -/
theorem link_me_roundtrip :
    (∀ (env : Env) (st : ConnState) (req : LinkRequest) (m : List (Str × Str))
        (channel : Channel),
      st.links = some m →
      shortcutMatch req.name = true →
      req.priv = false →
      env.makeChannel req.key req.channel = some channel →
      channel.channelType ≠ ChannelType.ChannelInvalid →
      lookupAssoc (linksOf (onLink env st (some req)).2.links) req.name =
        some channel.str ∧
      lookupAssoc (respLinks (onMe env (onLink env st (some req)).2).1) req.name =
        some ((env.parseChannel channel.str).safeString)) ∧
    (∀ (env : Env) (st : ConnState),
      respLinks (onMe env st).1 =
        (linksOf st.links).map
          (fun e => (e.1, Channel.safeString (env.parseChannel e.2)))) ∧
    (∀ (c : Channel) (kk : Str),
      Channel.safeString { c with key := kk } = Channel.safeString c) := by
  refine ⟨?_, fun env st => rfl, fun c kk => rfl⟩
  intro env st req m channel hm hname hpriv hmk hty
  have hlinks : (onLink env st (some req)).2.links =
      some (setAssoc m req.name channel.str) := by
    simp [onLink, hname, linkChannel, hpriv, hmk, hty, linkSubscribe_links,
      linksSet, hm]
  constructor
  · rw [hlinks]
    exact lookupAssoc_setAssoc_self m req.name channel.str
  · have hme : respLinks (onMe env (onLink env st (some req)).2).1 =
        (linksOf (onLink env st (some req)).2.links).map
          (fun e => (e.1, (env.parseChannel e.2).safeString)) := rfl
    rw [hme, hlinks]
    show lookupAssoc ((setAssoc m req.name channel.str).map
        (fun e => (e.1, (env.parseChannel e.2).safeString))) req.name =
      some ((env.parseChannel channel.str).safeString)
    rw [lookupAssoc_map_safe, lookupAssoc_setAssoc_self]
    rfl

/-- A well-formed link request. -/
def reqLink : LinkRequest :=
  { name := [97], key := [1], channel := [97, 47], subscribe := false, priv := false }

/-- Witness for C9: the stored link round-trips through `onMe` and the
reported value is the key-independent safe string. -/
theorem link_me_roundtrip_witness :
    lookupAssoc (linksOf (onLink envA st0 (some reqLink)).2.links) reqLink.name =
      some chA.str ∧
    lookupAssoc (respLinks (onMe envA (onLink envA st0 (some reqLink)).2).1)
      reqLink.name = some ((envA.parseChannel chA.str).safeString) ∧
    respLinks (onMe envA stLinks).1 =
      (linksOf stLinks.links).map
        (fun e => (e.1, Channel.safeString (envA.parseChannel e.2))) ∧
    Channel.safeString { chA with key := [9, 9] } = Channel.safeString chA :=
  ⟨(link_me_roundtrip.1 envA st0 reqLink [] chA rfl (by decide) rfl rfl
      (by decide)).1,
    (link_me_roundtrip.1 envA st0 reqLink [] chA rfl (by decide) rfl rfl
      (by decide)).2,
    link_me_roundtrip.2.1 envA stLinks,
    link_me_roundtrip.2.2 chA [9, 9]⟩

end Emitter
